import Mathlib

/-!
Shallow embedding of the GitHub App credential module of this repository:

* `config.ts` (env-aware variant): `readConfig`, `getPrivateKey`,
  `setPrivateKey` — credential resolution across environment variables,
  a JSON config file and the macOS keychain.
* `auth.ts`: `createJwt`, `fetchInstallationToken`, `getInstallationToken`,
  `clearTokenCache` — JWT construction and installation-token caching.
* `index.ts`: `isTokenStale`, `refreshToken`, `spawnHook` (bash-tool
  variant) and the `gh` CLI dispatcher with its retry-on-auth-error logic.

External effects (filesystem reads, the keychain `security` subprocess, the
HTTPS token exchange, `pi.exec` of the `gh` binary, `Date.now()`) are passed
in as explicit inputs/oracles; module-level mutable state (`cachedToken`,
`botToken`, `tokenAcquiredAt`) is threaded as explicit state.  Strings that
the TypeScript code manipulates at the byte level (the PEM private key,
which `Buffer` converts between its UTF-8 bytes and base64 text) are
modelled as their byte content (`List Nat`, each byte `< 256`).
-/

namespace GhBot

/-! ## Basic data -/

/-- Result of `pi.exec` — `{ stdout, stderr, code }` in `index.ts`. -/
structure ExecResult where
  stdout : String
  stderr : String
  code : Int
deriving DecidableEq, Repr

/-- The process environment slice the credential code reads: the
`GH_BOT_*` variables.  `none` means the variable is unset; the private key
variable is modelled as the byte content of its value. -/
structure Env where
  appId : Option String
  installationId : Option String
  privateKey : Option (List Nat)
  human : Option String
  agent : Option String
deriving DecidableEq, Repr

/-- `GhBotConfig` of `config.ts` (env-aware variant): `appId` required,
the rest optional. -/
structure GhBotConfig where
  appId : Int
  installationId : Option Int := none
  human : Option String := none
  agent : Option String := none
  repo : Option String := none
deriving DecidableEq, Repr

/-- JSON values, the possible results of `JSON.parse`.  Numbers are
modelled as integers (the config fields are integral ids; the code only
tests `typeof x === "number"`). -/
inductive Jv where
  | num : Int → Jv
  | str : String → Jv
  | bool : Bool → Jv
  | null : Jv
  | arr : List Jv → Jv
  | obj : List (String × Jv) → Jv
deriving Repr

/-- JS property access `parsed.k` on a parsed JSON value: a field of an
object, `undefined` (here `none`) otherwise. -/
def Jv.getField : Jv → String → Option Jv
  | .obj fields, k => fields.lookup k
  | _, _ => none

/-- `typeof v === "number"` projection. -/
def Jv.asNum : Jv → Option Int
  | .num n => some n
  | _ => none

/-- `typeof v === "string"` projection. -/
def Jv.asStr : Jv → Option String
  | .str s => some s
  | _ => none

/-! ## `parseInt(s, 10)` -/

/-- The whitespace characters `parseInt` skips (ASCII subset of the JS
WhiteSpace/LineTerminator productions). -/
def isJsWs (c : Char) : Bool :=
  c = ' ' || c = '\t' || c = '\n' || c = '\r' || c = '\x0b' || c = '\x0c'

/-- Numeric value of a decimal-digit list (most significant first). -/
def digitsVal (l : List Char) : Nat :=
  l.foldl (fun acc c => acc * 10 + (c.toNat - '0'.toNat)) 0

/-- `parseInt(s, 10)`: skip leading whitespace, optional sign, then the
longest prefix of decimal digits; `NaN` (here `none`) if there are no
digits. -/
def parseIntJS (s : String) : Option Int :=
  let l := (s.toList).dropWhile isJsWs
  let (sign, rest) : Int × List Char :=
    match l with
    | '-' :: r => (-1, r)
    | '+' :: r => (1, r)
    | _ => (1, l)
  let digits := rest.takeWhile Char.isDigit
  if digits.isEmpty then none
  else some (sign * (digitsVal digits : Int))

/-! ## Credential resolver (`readConfig`, `getPrivateKey`, `setPrivateKey`) -/

/-- JS truthiness of an optional environment-variable string:
set and non-empty. -/
def truthyStr : Option String → Bool
  | none => false
  | some s => !s.isEmpty

/-- The environment-variable branch of `readConfig`: when `GH_BOT_APP_ID`
and `GH_BOT_INSTALLATION_ID` are both truthy and both `parseInt` to
non-`NaN` numbers, build the config from the environment alone; otherwise
fall through (to the file branch). -/
def readConfigEnv (env : Env) : Option GhBotConfig :=
  if truthyStr env.appId && truthyStr env.installationId then
    match parseIntJS (env.appId.getD ""), parseIntJS (env.installationId.getD "") with
    | some appId, some installationId =>
      some { appId, installationId := some installationId,
             human := env.human, agent := env.agent }
    | _, _ => none
  else none

/-- The config-file branch of `readConfig`: `fileContent = none` models a
failing `fs.readFile`, `parse` models `JSON.parse` (`none` = throw); a
non-numeric `appId` yields `null`; the optional fields are kept only when
they have the right `typeof`. -/
def readConfigFile (fileContent : Option String) (parse : String → Option Jv) :
    Option GhBotConfig :=
  match fileContent with
  | none => none
  | some content =>
    match parse content with
    | none => none
    | some parsed =>
      match (parsed.getField "appId").bind Jv.asNum with
      | none => none
      | some appId =>
        some { appId,
               installationId := (parsed.getField "installationId").bind Jv.asNum,
               human := (parsed.getField "human").bind Jv.asStr,
               agent := (parsed.getField "agent").bind Jv.asStr,
               repo := (parsed.getField "repo").bind Jv.asStr }

/-- `readConfig`: environment variables first, then the config file. -/
def readConfig (env : Env) (fileContent : Option String)
    (parse : String → Option Jv) : Option GhBotConfig :=
  match readConfigEnv env with
  | some cfg => some cfg
  | none => readConfigFile fileContent parse

/-! ## Standard base64 (Node `Buffer` `'base64'` codec) -/

/-- The standard base64 alphabet. -/
def b64Alphabet : List Char :=
  ("ABCDEFGHIJKLMNOPQRSTUVWXYZabcdefghijklmnopqrstuvwxyz0123456789+/").toList

/-- Character of a sextet value. -/
def b64c (n : Nat) : Char := b64Alphabet.getD n 'A'

/-- Inverse lookup helper: position of a character in a list. -/
def b64vAux : List Char → Nat → Char → Option Nat
  | [], _, _ => none
  | a :: rest, i, c => if c = a then some i else b64vAux rest (i + 1) c

/-- Sextet value of an alphabet character; `none` for padding and any
other character (which Node's decoder skips). -/
def b64v (c : Char) : Option Nat := b64vAux b64Alphabet 0 c

/-- `Buffer.prototype.toString('base64')`: encode bytes three at a time,
padding the final group with `=`. -/
def b64encodeBytes : List Nat → List Char
  | [] => []
  | [a] => [b64c (a / 4), b64c (a % 4 * 16), '=', '=']
  | [a, b] => [b64c (a / 4), b64c (a % 4 * 16 + b / 16), b64c (b % 16 * 4), '=']
  | a :: b :: c :: rest =>
    b64c (a / 4) :: b64c (a % 4 * 16 + b / 16) :: b64c (b % 16 * 4 + c / 64) ::
      b64c (c % 64) :: b64encodeBytes rest

/-- Reassemble bytes from sextet values four at a time; a trailing group
of three or two sextets yields two or one bytes. -/
def b64decodeSextets : List Nat → List Nat
  | a :: b :: c :: d :: rest =>
    (a * 4 + b / 16) :: (b % 16 * 16 + c / 4) :: (c % 4 * 64 + d) ::
      b64decodeSextets rest
  | [a, b, c] => [a * 4 + b / 16, b % 16 * 16 + c / 4]
  | [a, b] => [a * 4 + b / 16]
  | [_] => []
  | [] => []

/-- `Buffer.from(s, 'base64')`: drop padding and foreign characters, then
decode the sextets. -/
def b64decodeChars (s : List Char) : List Nat :=
  b64decodeSextets (s.filterMap b64v)

/-! ## Keychain paths (`getPrivateKey`, `setPrivateKey`) -/

/-- `String.prototype.trimEnd()`: remove trailing whitespace. -/
def jsTrimEnd (l : List Char) : List Char :=
  (l.reverse.dropWhile isJsWs).reverse

/-- The string `setPrivateKey` hands to `security add-generic-password
-w`: the base64 encoding of the key's UTF-8 bytes. -/
def setPrivateKeyStored (key : List Nat) : List Char :=
  b64encodeBytes key

/-- The keychain fallback of `getPrivateKey`: `none` models a failing
`security find-generic-password`; on success the stdout is trimmed at the
end and base64-decoded back to the key bytes. -/
def keychainLookup : Option (List Char) → Option (List Nat)
  | none => none
  | some stdout => some (b64decodeChars (jsTrimEnd stdout))

/-- JS truthiness of the optional private-key bytes: set and non-empty. -/
def truthyBytes : Option (List Nat) → Bool
  | none => false
  | some l => !l.isEmpty

/-- `getPrivateKey` (env-aware variant): the `GH_BOT_PRIVATE_KEY`
environment variable wins when truthy; otherwise the keychain. -/
def getPrivateKey (env : Env) (keychainStdout : Option (List Char)) :
    Option (List Nat) :=
  match env.privateKey with
  | some k => if k.isEmpty then keychainLookup keychainStdout else some k
  | none => keychainLookup keychainStdout

/-! ## JWT construction (`createJwt` in `auth.ts`) -/

/-- UTF-8 encoding of one character (total: `Char` is a unicode scalar). -/
def utf8EncodeChar (c : Char) : List Nat :=
  let n := c.toNat
  if n < 128 then [n]
  else if n < 2048 then [192 + n / 64, 128 + n % 64]
  else if n < 65536 then [224 + n / 4096, 128 + n / 64 % 64, 128 + n % 64]
  else [240 + n / 262144, 128 + n / 4096 % 64, 128 + n / 64 % 64, 128 + n % 64]

/-- `Buffer.from(s, 'utf-8')`: the UTF-8 bytes of a string. -/
def utf8Encode (s : String) : List Nat :=
  (s.toList.map utf8EncodeChar).flatten

/-- The base64url alphabet (`-`, `_` in place of `+`, `/`). -/
def b64urlAlphabet : List Char :=
  ("ABCDEFGHIJKLMNOPQRSTUVWXYZabcdefghijklmnopqrstuvwxyz0123456789-_").toList

/-- Character of a sextet value, URL alphabet. -/
def b64uc (n : Nat) : Char := b64urlAlphabet.getD n 'A'

/-- base64url encoding of bytes: no padding (Node `'base64url'`). -/
def b64urlBytes : List Nat → List Char
  | [] => []
  | [a] => [b64uc (a / 4), b64uc (a % 4 * 16)]
  | [a, b] => [b64uc (a / 4), b64uc (a % 4 * 16 + b / 16), b64uc (b % 16 * 4)]
  | a :: b :: c :: rest =>
    b64uc (a / 4) :: b64uc (a % 4 * 16 + b / 16) :: b64uc (b % 16 * 4 + c / 64) ::
      b64uc (c % 64) :: b64urlBytes rest

/-- `base64url` of `auth.ts`: UTF-8 bytes of the string, base64url,
no padding. -/
def base64url (s : String) : String :=
  String.mk (b64urlBytes (utf8Encode s))

/-- `JSON.stringify` of the fixed JWT header object. -/
def jwtHeaderJson : String := "\x7b\"alg\":\"RS256\",\"typ\":\"JWT\"\x7d"

/-- `JSON.stringify` of the JWT payload built by `createJwt`: `iss` is the
app id, `iat` is `now - 60`, `exp` is `now + 600` (seconds). -/
def jwtPayloadJson (appId now : Int) : String :=
  "\x7b\"iss\":" ++ toString appId ++ ",\"iat\":" ++ toString (now - 60) ++
    ",\"exp\":" ++ toString (now + 600) ++ "\x7d"

/-- `createJwt`: base64url the header and payload JSON, join with `.`,
and append the RS256 signature of that string.  `now` is
`Math.floor(Date.now() / 1000)`; `sign` models `crypto.createSign
("RSA-SHA256")` + `sign(privateKey, "base64url")` for the resolved
private key. -/
def createJwt (appId : Int) (now : Int) (sign : String → String) : String :=
  let headerB64 := base64url jwtHeaderJson
  let payloadB64 := base64url (jwtPayloadJson appId now)
  let unsigned := headerB64 ++ "." ++ payloadB64
  unsigned ++ "." ++ sign unsigned

/-! ## Token issuer (`fetchInstallationToken`, `getInstallationToken`) -/

instance {ε α : Type} [DecidableEq ε] [DecidableEq α] : DecidableEq (Except ε α) :=
  fun x y =>
    match x, y with
    | .ok a, .ok b =>
      if h : a = b then .isTrue (h ▸ rfl)
      else .isFalse fun hh => h (Except.ok.inj hh)
    | .error a, .error b =>
      if h : a = b then .isTrue (h ▸ rfl)
      else .isFalse fun hh => h (Except.error.inj hh)
    | .ok _, .error _ => .isFalse fun hh => Except.noConfusion hh
    | .error _, .ok _ => .isFalse fun hh => Except.noConfusion hh

/-- Outcome of the token-issuer fetch path: the thrown/returned value and
how many outbound HTTPS calls were made. -/
structure FetchOutcome where
  result : Except String String
  netCalls : Nat
deriving DecidableEq, Repr

/-- `fetchInstallationToken`: resolve config and private key (throwing a
configuration error first), build the JWT, then make the single POST to
the token endpoint.  `resp` is the network oracle: the response to a
request carrying a given JWT (`Except.error (status, body)` models a
non-2xx response). -/
def fetchInstallationToken (env : Env) (fileContent : Option String)
    (parse : String → Option Jv) (keychainStdout : Option (List Char))
    (now : Int) (sign : String → String)
    (resp : String → Except (Int × String) String) : FetchOutcome :=
  match readConfig env fileContent parse with
  | none =>
    { result := .error "GitHub App not configured. Run /gh-bot-setup first.",
      netCalls := 0 }
  | some config =>
    -- `if (!config.installationId)`: JS falsy = undefined or 0
    if config.installationId = none ∨ config.installationId = some 0 then
      { result := .error "Installation ID not configured. Run /gh-bot-setup first.",
        netCalls := 0 }
    else
      match getPrivateKey env keychainStdout with
      | none =>
        { result := .error "Private key not found in Keychain. Run /gh-bot-setup first.",
          netCalls := 0 }
      | some _privateKey =>
        match resp (createJwt config.appId now sign) with
        | .ok token => { result := .ok token, netCalls := 1 }
        | .error (status, body) =>
          { result := .error ("GitHub API error (" ++ toString status ++ "): " ++ body),
            netCalls := 1 }

/-- `getInstallationToken` over the module-level `cachedToken` state:
return the cache when set; otherwise run one fetch (its outcome given by
the `fetch` oracle), caching on success.  Returns (result, new cache,
number of fetches performed). -/
def getInstallationToken (cached : Option String)
    (fetch : Except String String) :
    Except String String × Option String × Nat :=
  match cached with
  | some t => (.ok t, some t, 0)
  | none =>
    match fetch with
    | .ok tok => (.ok tok, some tok, 1)
    | .error e => (.error e, none, 1)

/-! ## CLI dispatcher (`gh`, `isAuthError` in `index.ts`) -/

/-- Does `pat` occur as a contiguous run inside the list? -/
def hasInfix (pat : List Char) : List Char → Bool
  | [] => pat.isEmpty
  | c :: rest => pat.isPrefixOf (c :: rest) || hasInfix pat rest

/-- `isAuthError`: the case-insensitive regex
`401|Bad credentials|authentication|unauthorized` tested against stderr
(modelled by lowercasing and matching the lowercased alternatives as
substrings). -/
def isAuthError (stderr : String) : Bool :=
  let s := stderr.toList.map Char.toLower
  hasInfix "401".toList s || hasInfix "bad credentials".toList s ||
    hasInfix "authentication".toList s || hasInfix "unauthorized".toList s

/-- Outcome of one `gh(...)` dispatcher call: the value
returned/thrown, the final `cachedToken`, the number of token fetches,
and the `GH_TOKEN` injected into each `pi.exec` call in order (`none` =
ambient credentials). -/
structure GhOutcome where
  result : Except String ExecResult
  cached : Option String
  nFetch : Nat
  execTokens : List (Option String)
deriving DecidableEq, Repr

/-- The `gh` dispatcher.  `fetchO n` is the outcome of the `n`-th token
fetch; `execO n` is the result of the `n`-th `pi.exec("gh", ...)` call.
In bot mode: acquire a token, run the command, and on a non-zero exit
whose stderr matches the auth-error pattern, clear the token cache,
reacquire, and re-run once — but only when the fresh token differs from
the one that failed; otherwise (and on non-auth failures) the first
result is returned as is. -/
def gh (useBotAuth : Bool) (cached0 : Option String)
    (fetchO : Nat → Except String String) (execO : Nat → ExecResult) :
    GhOutcome :=
  if !useBotAuth then
    { result := .ok (execO 0), cached := cached0, nFetch := 0,
      execTokens := [none] }
  else
    match getInstallationToken cached0 (fetchO 0) with
    | (.error e, c1, n1) =>
      { result := .error e, cached := c1, nFetch := n1, execTokens := [] }
    | (.ok token, c1, n1) =>
      let r1 := execO 0
      if r1.code != 0 && isAuthError r1.stderr then
        -- clearTokenCache(); getInstallationToken()
        match getInstallationToken none (fetchO n1) with
        | (.error e, c2, n2) =>
          { result := .error e, cached := c2, nFetch := n1 + n2,
            execTokens := [some token] }
        | (.ok newToken, c2, n2) =>
          if newToken != token then
            { result := .ok (execO 1), cached := c2, nFetch := n1 + n2,
              execTokens := [some token, some newToken] }
          else
            { result := .ok r1, cached := c2, nFetch := n1 + n2,
              execTokens := [some token] }
      else
        { result := .ok r1, cached := c1, nFetch := n1,
          execTokens := [some token] }

/-! ## Bash-tool variant (`isTokenStale`, `refreshToken`, `spawnHook`) -/

/-- `TOKEN_REFRESH_MS = 50 * 60 * 1000`. -/
def TOKEN_REFRESH_MS : Int := 50 * 60 * 1000

/-- Combined mutable state of the bash-tool variant: `auth.ts`'s
`cachedToken` plus `index.ts`'s `botToken` and `tokenAcquiredAt`
(timestamps in ms; `tokenAcquiredAt = some 0` is falsy in JS, like
`null`). -/
structure BotState where
  cachedToken : Option String
  botToken : Option String
  tokenAcquiredAt : Option Int
deriving DecidableEq, Repr

/-- `isTokenStale`: `true` when `tokenAcquiredAt` is falsy (unset or 0),
otherwise when more than `TOKEN_REFRESH_MS` has passed since it. -/
def isTokenStale (st : BotState) (now : Int) : Bool :=
  match st.tokenAcquiredAt with
  | none => true
  | some t => if t = 0 then true else decide (now - t > TOKEN_REFRESH_MS)

/-- `refreshToken`: `clearTokenCache()` then `getInstallationToken()`
(which, on the now-empty cache, performs exactly one fetch), then record
the token and the acquisition time.  On a fetch error the state keeps the
old `botToken`/`tokenAcquiredAt` (the cache stays cleared) and the error
propagates.  Returns (state, fetches, success). -/
def refreshToken (st : BotState) (now : Int)
    (fetch : Except String String) : BotState × Nat × Bool :=
  match getInstallationToken none fetch with
  | (.ok tok, c, n) =>
    ({ cachedToken := c, botToken := some tok, tokenAcquiredAt := some now }, n, true)
  | (.error _, c, n) =>
    ({ st with cachedToken := c }, n, false)

/-- Outcome of the bash-tool `spawnHook`: the final state, the number of
token fetches, and the `GH_TOKEN` value injected into the command's
environment (`none` = environment unchanged).  The hook always returns
the command for execution: a refresh failure is swallowed. -/
structure SpawnOutcome where
  st : BotState
  nFetch : Nat
  ghToken : Option String
deriving DecidableEq, Repr

/-- `spawnHook`: when `botToken` is truthy and stale, try a refresh and
ignore any error; then return the command with `GH_TOKEN` set to the
(possibly refreshed, possibly still old) `botToken` when truthy. -/
def spawnHook (st : BotState) (now : Int)
    (fetch : Except String String) : SpawnOutcome :=
  let (st1, n1) :=
    if truthyStr st.botToken && isTokenStale st now then
      let (st', n, _ok) := refreshToken st now fetch
      (st', n)
    else (st, 0)
  { st := st1, nFetch := n1,
    ghToken := if truthyStr st1.botToken then st1.botToken else none }

/-! ## Helper lemmas -/

/-- A successful `getInstallationToken` call leaves the returned token in
the cache. -/
theorem getInstallationToken_ok_cache (cached : Option String)
    (fetch : Except String String) (t : String) (c : Option String) (n : Nat)
    (h : getInstallationToken cached fetch = (.ok t, c, n)) : c = some t := by
  cases cached with
  | some t0 =>
    simp [getInstallationToken] at h
    obtain ⟨h1, h2, -⟩ := h
    rw [← h2, h1]
  | none =>
    cases fetch with
    | ok tok =>
      simp [getInstallationToken] at h
      obtain ⟨h1, h2, -⟩ := h
      rw [← h2, h1]
    | error e => simp [getInstallationToken] at h

/-! ## Claims -/

/-- C3: when `GH_BOT_APP_ID` and `GH_BOT_INSTALLATION_ID` are both set,
non-empty and parse as numbers, `readConfig` returns the
environment-sourced values for every state of the config file, and, when
`GH_BOT_PRIVATE_KEY` is set and non-empty, `getPrivateKey` returns it for
every keychain state: the file/keychain source is ignored entirely and no
field is merged across the two sources. -/
theorem readConfig_env_precedence (env : Env) (a i : String) (av iv : Int)
    (ha : env.appId = some a) (hi : env.installationId = some i)
    (hna : a.isEmpty = false) (hni : i.isEmpty = false)
    (hpa : parseIntJS a = some av) (hpi : parseIntJS i = some iv) :
    (∀ fileContent parse, readConfig env fileContent parse =
      some { appId := av, installationId := some iv,
             human := env.human, agent := env.agent, repo := none }) ∧
    (∀ k keychainStdout, env.privateKey = some k → k.isEmpty = false →
      getPrivateKey env keychainStdout = some k) := by
  constructor
  · intro fileContent parse
    simp [readConfig, readConfigEnv, truthyStr, ha, hi, hna, hni, hpa, hpi]
  · intro k keychain hk hke
    simp [getPrivateKey, hk, hke]

/-- C3 witness: a concrete environment with both ids and a private key. -/
theorem readConfig_env_precedence_witness :
    (∀ fileContent parse, readConfig
        ⟨some "12", some "34", some [65], none, none⟩ fileContent parse =
      some { appId := 12, installationId := some 34,
             human := none, agent := none, repo := none }) ∧
    (∀ k keychainStdout,
      (⟨some "12", some "34", some [65], none, none⟩ : Env).privateKey = some k →
      k.isEmpty = false →
      getPrivateKey ⟨some "12", some "34", some [65], none, none⟩ keychainStdout =
        some k) :=
  readConfig_env_precedence _ "12" "34" 12 34 rfl rfl rfl rfl
    (by decide) (by decide)

/-- C4: after any successful token acquisition, a second
`getInstallationToken` call returns the identical cached token string and
performs no fetch — in particular for two calls within the staleness
window. -/
theorem getToken_second_call_cached (cached : Option String)
    (fetch1 : Except String String) (t : String) (c : Option String) (n : Nat)
    (h : getInstallationToken cached fetch1 = (.ok t, c, n)) :
    ∀ fetch2, getInstallationToken c fetch2 = (.ok t, c, 0) := by
  intro fetch2
  have hc := getInstallationToken_ok_cache cached fetch1 t c n h
  subst hc
  rfl

/-- C4 witness: a first call from the empty cache, then a second call
(whose own fetch oracle would return a different token, unused). -/
theorem getToken_second_call_cached_witness :
    getInstallationToken (some "ghs_abc") (.ok "ghs_other") =
      (.ok "ghs_abc", some "ghs_abc", 0) :=
  getToken_second_call_cached none (.ok "ghs_abc") "ghs_abc"
    (some "ghs_abc") 1 rfl (.ok "ghs_other")

/-- C5: a dispatcher invocation that fails (non-zero exit) with a stderr
that does not match the authentication-failure pattern is returned
immediately with exactly one exec and zero retries — in bot mode (given a
successful token acquisition) and in personal mode. -/
theorem gh_non_auth_failure_immediate (cached0 : Option String)
    (fetchO : Nat → Except String String) (execO : Nat → ExecResult)
    (t : String) (c1 : Option String) (n1 : Nat)
    (h1 : getInstallationToken cached0 (fetchO 0) = (.ok t, c1, n1))
    (_hfail : (execO 0).code ≠ 0)
    (hna : isAuthError (execO 0).stderr = false) :
    gh true cached0 fetchO execO =
      { result := .ok (execO 0), cached := c1, nFetch := n1,
        execTokens := [some t] } ∧
    gh false cached0 fetchO execO =
      { result := .ok (execO 0), cached := cached0, nFetch := 0,
        execTokens := [none] } := by
  constructor
  · simp [gh, h1, hna]
  · rfl

/-- C5 witness: a cached token and a non-auth failure (`exit 1`, stderr a
network error). -/
theorem gh_non_auth_failure_immediate_witness :
    gh true (some "tok") (fun _ => .ok "tok")
        (fun _ => ⟨"", "connection reset by peer", 1⟩) =
      { result := .ok ⟨"", "connection reset by peer", 1⟩,
        cached := some "tok", nFetch := 0, execTokens := [some "tok"] } ∧
    gh false (some "tok") (fun _ => .ok "tok")
        (fun _ => ⟨"", "connection reset by peer", 1⟩) =
      { result := .ok ⟨"", "connection reset by peer", 1⟩,
        cached := some "tok", nFetch := 0, execTokens := [none] } :=
  gh_non_auth_failure_immediate (some "tok") _ _ "tok" (some "tok") 0 rfl
    (by decide) (by decide)

/-- C2 counterexample: a token cached at time 1 ms, queried 51 minutes
later — `isTokenStale` is `true`, yet `getInstallationToken` still
returns the cached value and performs zero token-exchange calls (the
staleness threshold is not consulted by `getInstallationToken` at all). -/
theorem getToken_stale_cex :
    isTokenStale ⟨some "old", some "old", some 1⟩ (1 + 51 * 60 * 1000) = true ∧
    getInstallationToken (some "old") (.ok "fresh") =
      (.ok "old", some "old", 0) := by
  constructor
  · decide
  · rfl

/-- C2 amended: `getInstallationToken` itself returns the cached token
regardless of its age; the 50-minute staleness threshold is enforced by
the bash-tool `spawnHook`, where a truthy, stale `botToken` triggers
`refreshToken`: exactly one new token-exchange call is performed and its
result is cached with a new acquisition timestamp. -/
theorem spawnHook_stale_refresh (st : BotState) (now : Int) (t t' : String)
    (hbt : st.botToken = some t) (hne : t.isEmpty = false)
    (hstale : isTokenStale st now = true) :
    spawnHook st now (.ok t') =
      { st := { cachedToken := some t', botToken := some t',
                tokenAcquiredAt := some now },
        nFetch := 1,
        ghToken := if t'.isEmpty then none else some t' } := by
  simp only [spawnHook, refreshToken, getInstallationToken, truthyStr,
    hbt, hne, hstale, Bool.not_false, Bool.and_self]
  cases ht' : t'.isEmpty <;> simp_all [truthyStr]

/-- C2 amended witness: stale state, fresh token `"new"`. -/
theorem spawnHook_stale_refresh_witness :
    spawnHook ⟨some "old", some "old", some 1⟩ (1 + 51 * 60 * 1000)
        (.ok "new") =
      { st := { cachedToken := some "new", botToken := some "new",
                tokenAcquiredAt := some (1 + 51 * 60 * 1000) },
        nFetch := 1,
        ghToken := if ("new").isEmpty then none else some "new" } :=
  spawnHook_stale_refresh ⟨some "old", some "old", some 1⟩ _ "old" "new"
    rfl (by decide) (by decide)

/-- C10: in the bash-tool `spawnHook`, when bot mode is active
(`botToken` truthy) and the token is stale, a failing refresh is caught
and ignored: the hook still returns the command for execution and injects
the previously acquired token as `GH_TOKEN` (only the inner fetch cache
is left cleared). -/
theorem spawnHook_refresh_failure_swallowed (st : BotState) (now : Int)
    (t e : String) (hbt : st.botToken = some t) (hne : t.isEmpty = false)
    (hstale : isTokenStale st now = true) :
    spawnHook st now (.error e) =
      { st := { cachedToken := none, botToken := some t,
                tokenAcquiredAt := st.tokenAcquiredAt },
        nFetch := 1, ghToken := some t } := by
  simp [spawnHook, refreshToken, getInstallationToken, truthyStr,
    hbt, hne, hstale]

/-- C10 witness: stale state, refresh fails with a network error. -/
theorem spawnHook_refresh_failure_swallowed_witness :
    spawnHook ⟨some "old", some "old", some 1⟩ (1 + 51 * 60 * 1000)
        (.error "fetch failed") =
      { st := { cachedToken := none, botToken := some "old",
                tokenAcquiredAt := some 1 },
        nFetch := 1, ghToken := some "old" } :=
  spawnHook_refresh_failure_swallowed ⟨some "old", some "old", some 1⟩ _
    "old" "fetch failed" rfl (by decide) (by decide)

/-- C6: whenever credentials are missing — no config, a falsy installation
id, or no resolvable private key — `fetchInstallationToken` fails with a
configuration error and the HTTPS token-exchange request is never issued
(zero outbound network calls). -/
theorem fetch_unconfigured_no_network (env : Env) (fileContent : Option String)
    (parse : String → Option Jv) (keychainStdout : Option (List Char))
    (now : Int) (sign : String → String)
    (resp : String → Except (Int × String) String)
    (h : readConfig env fileContent parse = none ∨
      (∃ cfg, readConfig env fileContent parse = some cfg ∧
        (cfg.installationId = none ∨ cfg.installationId = some 0)) ∨
      getPrivateKey env keychainStdout = none) :
    (fetchInstallationToken env fileContent parse keychainStdout
        now sign resp).netCalls = 0 ∧
    ∃ e, (fetchInstallationToken env fileContent parse keychainStdout
        now sign resp).result = .error e := by
  rcases hrc : readConfig env fileContent parse with _ | cfg
  · refine ⟨?_, "GitHub App not configured. Run /gh-bot-setup first.", ?_⟩ <;>
      simp [fetchInstallationToken, hrc]
  · rcases h with h | ⟨cfg', hcfg', hii⟩ | hpk
    · rw [hrc] at h
      exact absurd h (by simp)
    · rw [hrc] at hcfg'
      injection hcfg' with hc
      subst hc
      refine ⟨?_, "Installation ID not configured. Run /gh-bot-setup first.", ?_⟩ <;>
        simp [fetchInstallationToken, hrc, hii]
    · by_cases hii : cfg.installationId = none ∨ cfg.installationId = some 0
      · refine ⟨?_, "Installation ID not configured. Run /gh-bot-setup first.", ?_⟩ <;>
          simp [fetchInstallationToken, hrc, hii]
      · refine ⟨?_, "Private key not found in Keychain. Run /gh-bot-setup first.", ?_⟩ <;>
          simp [fetchInstallationToken, hrc, hii, hpk]

/-- C6 witness: no environment variables, no config file, no keychain
entry. -/
theorem fetch_unconfigured_no_network_witness :
    (fetchInstallationToken ⟨none, none, none, none, none⟩ none
        (fun _ => none) none 0 (fun _ => "") (fun _ => .ok "tok")).netCalls = 0 ∧
    ∃ e, (fetchInstallationToken ⟨none, none, none, none, none⟩ none
        (fun _ => none) none 0 (fun _ => "") (fun _ => .ok "tok")).result =
      .error e :=
  fetch_unconfigured_no_network ⟨none, none, none, none, none⟩ none
    (fun _ => none) none 0 (fun _ => "") (fun _ => .ok "tok") (.inl rfl)

/-- C7: when neither source yields complete credentials the resolver
returns `none` ("not configured") rather than an error: with the
environment branch not applicable, a missing config file, an unparsable
one, and one with a non-numeric `appId` all yield `none`; and with the
environment key unset or empty, a failed keychain lookup yields `none`. -/
theorem resolver_not_configured (env : Env)
    (henv : readConfigEnv env = none)
    (hpk : ∀ k, env.privateKey = some k → k.isEmpty = true) :
    (∀ parse, readConfig env none parse = none) ∧
    (∀ content parse, parse content = none →
      readConfig env (some content) parse = none) ∧
    (∀ content parse j, parse content = some j →
      (j.getField "appId").bind Jv.asNum = none →
      readConfig env (some content) parse = none) ∧
    getPrivateKey env none = none := by
  refine ⟨?_, ?_, ?_, ?_⟩
  · intro parse
    simp [readConfig, henv, readConfigFile]
  · intro content parse hp
    simp [readConfig, henv, readConfigFile, hp]
  · intro content parse j hp hnum
    simp [readConfig, henv, readConfigFile, hp, hnum]
  · cases hk : env.privateKey with
    | none => simp [getPrivateKey, hk, keychainLookup]
    | some k => simp [getPrivateKey, hk, hpk k hk, keychainLookup]

/-- C7 witness: the empty environment, an unparsable file, a file with a
string `appId`, and a failing keychain. -/
theorem resolver_not_configured_witness :
    (∀ parse, readConfig ⟨none, none, none, none, none⟩ none parse = none) ∧
    (∀ content parse, parse content = none →
      readConfig ⟨none, none, none, none, none⟩ (some content) parse = none) ∧
    (∀ content parse j, parse content = some j →
      (j.getField "appId").bind Jv.asNum = none →
      readConfig ⟨none, none, none, none, none⟩ (some content) parse = none) ∧
    getPrivateKey ⟨none, none, none, none, none⟩ none = none :=
  resolver_not_configured ⟨none, none, none, none, none⟩ rfl
    (fun _ hk => nomatch hk)

/-- C1 counterexample: in bot mode the first execution fails with an
authentication error, the cache is cleared and a fresh token is fetched,
but the freshly fetched token equals the failed one — the dispatcher does
not re-run the invocation: it performs exactly one exec and returns the
original failure rather than the result of a retry (which here would have
been the distinct success result). -/
theorem gh_retry_cex :
    gh true (some "tok") (fun _ => .ok "tok")
        (fun n => if n = 0 then ⟨"", "HTTP 401 Unauthorized", 1⟩
                  else ⟨"ok", "", 0⟩) =
      { result := .ok ⟨"", "HTTP 401 Unauthorized", 1⟩,
        cached := some "tok", nFetch := 1, execTokens := [some "tok"] } ∧
    (⟨"", "HTTP 401 Unauthorized", 1⟩ : ExecResult) ≠ ⟨"ok", "", 0⟩ := by
  constructor
  · decide
  · decide

/-- C1 amended: in bot mode, when the first execution fails with stderr
matching the authentication pattern, the dispatcher clears the cached
token and fetches a fresh one; provided the fresh token differs from the
failed one, it re-runs the invocation exactly once with the fresh token
and returns the result of that single retry unmodified (if the fresh token
is identical, the original failure is returned without re-running); and no
dispatcher run ever performs more than two executions. -/
theorem gh_auth_retry (cached0 : Option String)
    (fetchO : Nat → Except String String) (execO : Nat → ExecResult)
    (t t' : String) (c1 c2 : Option String) (n1 n2 : Nat)
    (h1 : getInstallationToken cached0 (fetchO 0) = (.ok t, c1, n1))
    (hfail : ((execO 0).code != 0 && isAuthError (execO 0).stderr) = true)
    (h2 : getInstallationToken none (fetchO n1) = (.ok t', c2, n2))
    (hdiff : t' ≠ t) :
    gh true cached0 fetchO execO =
      { result := .ok (execO 1), cached := c2, nFetch := n1 + n2,
        execTokens := [some t, some t'] } ∧
    ∀ (b : Bool) (c : Option String) (f : Nat → Except String String)
      (e : Nat → ExecResult), (gh b c f e).execTokens.length ≤ 2 := by
  constructor
  · simp [gh, h1, hfail, h2, hdiff]
  · intro b c f e
    unfold gh
    split
    · simp
    · split
      · simp
      · split
        · dsimp only
          split <;> simp
        · dsimp only
          split
          · split <;> simp
          · simp

/-- C1 amended witness: cached token `"tok"`, auth failure, fresh token
`"fresh"`. -/
theorem gh_auth_retry_witness :
    gh true (some "tok") (fun _ => .ok "fresh")
        (fun n => if n = 0 then ⟨"", "HTTP 401 Unauthorized", 1⟩
                  else ⟨"ok", "", 0⟩) =
      { result := .ok ((fun n => if n = 0 then
            (⟨"", "HTTP 401 Unauthorized", 1⟩ : ExecResult)
          else ⟨"ok", "", 0⟩) 1),
        cached := some "fresh", nFetch := 0 + 1,
        execTokens := [some "tok", some "fresh"] } ∧
    ∀ (b : Bool) (c : Option String) (f : Nat → Except String String)
      (e : Nat → ExecResult), (gh b c f e).execTokens.length ≤ 2 :=
  gh_auth_retry (some "tok") _ _ "tok" "fresh" (some "tok") (some "fresh")
    0 1 rfl (by decide) rfl (by decide)

/-- C8: for every app id and signing time, the JWT assertion is
`base64url(header) "." base64url(payload) "." base64url-signature` of the
first two parts, where the header is the RS256 JWT header and the payload
carries exactly `iss = appId`, `iat = now - 60` and `exp = now + 600`
(seconds); the encoded header is the canonical RS256 header token. -/
theorem createJwt_shape (appId now : Int) (sign : String → String) :
    createJwt appId now sign =
      base64url "\x7b\"alg\":\"RS256\",\"typ\":\"JWT\"\x7d" ++ "." ++
        base64url ("\x7b\"iss\":" ++ toString appId ++ ",\"iat\":" ++
          toString (now - 60) ++ ",\"exp\":" ++ toString (now + 600) ++
          "\x7d") ++ "." ++
        sign (base64url "\x7b\"alg\":\"RS256\",\"typ\":\"JWT\"\x7d" ++ "." ++
          base64url ("\x7b\"iss\":" ++ toString appId ++ ",\"iat\":" ++
            toString (now - 60) ++ ",\"exp\":" ++ toString (now + 600) ++
            "\x7d")) ∧
    base64url "\x7b\"alg\":\"RS256\",\"typ\":\"JWT\"\x7d" =
      "eyJhbGciOiJSUzI1NiIsInR5cCI6IkpXVCJ9" :=
  ⟨rfl, by decide⟩

/-! ## Base64 round-trip lemmas (for C9) -/

/-- Decoding inverts encoding on sextet values. -/
theorem b64v_b64c : ∀ n < 64, b64v (b64c n) = some n := by decide

/-- The decoder skips padding characters. -/
theorem b64v_pad : b64v '=' = none := by decide

/-- Decoding a base64 encoding recovers the original bytes. -/
theorem b64_roundtrip (l : List Nat) :
    (∀ x ∈ l, x < 256) → b64decodeChars (b64encodeBytes l) = l := by
  induction l using b64encodeBytes.induct with
  | case1 => intro _; rfl
  | case2 a =>
    intro h
    have ha : a < 256 := h a (by simp)
    have e1 : b64v (b64c (a / 4)) = some (a / 4) := b64v_b64c _ (by omega)
    have e2 : b64v (b64c (a % 4 * 16)) = some (a % 4 * 16) :=
      b64v_b64c _ (by omega)
    simp only [b64encodeBytes, b64decodeChars, List.filterMap_cons, e1, e2,
      b64v_pad, List.filterMap_nil, b64decodeSextets, List.cons.injEq, and_true]
    omega
  | case3 a b =>
    intro h
    have ha : a < 256 := h a (by simp)
    have hb : b < 256 := h b (by simp)
    have e1 : b64v (b64c (a / 4)) = some (a / 4) := b64v_b64c _ (by omega)
    have e2 : b64v (b64c (a % 4 * 16 + b / 16)) = some (a % 4 * 16 + b / 16) :=
      b64v_b64c _ (by omega)
    have e3 : b64v (b64c (b % 16 * 4)) = some (b % 16 * 4) :=
      b64v_b64c _ (by omega)
    simp only [b64encodeBytes, b64decodeChars, List.filterMap_cons, e1, e2, e3,
      b64v_pad, List.filterMap_nil, b64decodeSextets, List.cons.injEq, and_true]
    constructor <;> omega
  | case4 a b c rest ih =>
    intro h
    have ha : a < 256 := h a (by simp)
    have hb : b < 256 := h b (by simp)
    have hc : c < 256 := h c (by simp)
    have ih' := ih (fun x hx => h x (by simp [hx]))
    have e1 : b64v (b64c (a / 4)) = some (a / 4) := b64v_b64c _ (by omega)
    have e2 : b64v (b64c (a % 4 * 16 + b / 16)) = some (a % 4 * 16 + b / 16) :=
      b64v_b64c _ (by omega)
    have e3 : b64v (b64c (b % 16 * 4 + c / 64)) = some (b % 16 * 4 + c / 64) :=
      b64v_b64c _ (by omega)
    have e4 : b64v (b64c (c % 64)) = some (c % 64) := b64v_b64c _ (by omega)
    simp only [b64decodeChars] at ih'
    simp only [b64encodeBytes, b64decodeChars, List.filterMap_cons, e1, e2, e3,
      e4, b64decodeSextets, ih', List.cons.injEq, and_true]
    refine ⟨by omega, by omega, by omega⟩

/-- `dropWhile` is the identity when the predicate never holds. -/
theorem dropWhile_eq_self_of_none {α : Type} (p : α → Bool) (l : List α)
    (h : ∀ x ∈ l, p x = false) : l.dropWhile p = l := by
  cases l with
  | nil => rfl
  | cons x xs => simp [List.dropWhile_cons, h x (by simp)]

/-- No base64-alphabet character is whitespace. -/
theorem isJsWs_b64c (n : Nat) : isJsWs (b64c n) = false := by
  rcases Nat.lt_or_ge n 64 with hn | hn
  · have hall : ∀ m < 64, isJsWs (b64c m) = false := by decide
    exact hall n hn
  · have hlen : b64Alphabet.length = 64 := by decide
    have : b64c n = 'A' := by
      unfold b64c
      exact List.getD_eq_default _ _ (by omega)
    rw [this]
    decide

/-- Every character a base64 encoding produces is non-whitespace. -/
theorem b64encodeBytes_not_ws (l : List Nat) :
    ∀ ch ∈ b64encodeBytes l, isJsWs ch = false := by
  induction l using b64encodeBytes.induct with
  | case1 => simp [b64encodeBytes]
  | case2 a =>
    intro ch hch
    simp only [b64encodeBytes, List.mem_cons, List.not_mem_nil, or_false] at hch
    rcases hch with rfl | rfl | rfl | rfl
    · exact isJsWs_b64c _
    · exact isJsWs_b64c _
    · decide
    · decide
  | case3 a b =>
    intro ch hch
    simp only [b64encodeBytes, List.mem_cons, List.not_mem_nil, or_false] at hch
    rcases hch with rfl | rfl | rfl | rfl
    · exact isJsWs_b64c _
    · exact isJsWs_b64c _
    · exact isJsWs_b64c _
    · decide
  | case4 a b c rest ih =>
    intro ch hch
    simp only [b64encodeBytes, List.mem_cons] at hch
    rcases hch with rfl | rfl | rfl | rfl | hmem
    · exact isJsWs_b64c _
    · exact isJsWs_b64c _
    · exact isJsWs_b64c _
    · exact isJsWs_b64c _
    · exact ih ch hmem

/-- `trimEnd` leaves a whitespace-free string unchanged. -/
theorem jsTrimEnd_eq_self (l : List Char)
    (h : ∀ ch ∈ l, isJsWs ch = false) : jsTrimEnd l = l := by
  unfold jsTrimEnd
  rw [dropWhile_eq_self_of_none _ _ (fun x hx => h x (List.mem_reverse.mp hx)),
    List.reverse_reverse]

/-- C9: storing a PEM private key via the keychain-write path (base64 of
its byte content) and reading it back via the keychain-read path (trim
trailing whitespace, base64-decode) yields byte-identical content,
provided `GH_BOT_PRIVATE_KEY` is unset and the keychain returns the
stored string. -/
theorem privateKey_roundtrip (env : Env) (key : List Nat)
    (henv : env.privateKey = none) (hbytes : ∀ x ∈ key, x < 256) :
    getPrivateKey env (some (setPrivateKeyStored key)) = some key := by
  simp [getPrivateKey, henv, keychainLookup, setPrivateKeyStored,
    jsTrimEnd_eq_self _ (b64encodeBytes_not_ws key),
    b64_roundtrip key hbytes]

/-- C9 witness: a concrete three-byte key (`-`, newline, `A`). -/
theorem privateKey_roundtrip_witness :
    getPrivateKey ⟨none, none, none, none, none⟩
      (some (setPrivateKeyStored [45, 10, 65])) = some [45, 10, 65] :=
  privateKey_roundtrip ⟨none, none, none, none, none⟩ [45, 10, 65] rfl
    (by decide)

end GhBot
